import Mathlib

/-!
Shallow embedding of the two HTTP handler slices of this repository
(src/pkg/services/searchV2/http.go): the dashboard-search proxy
(searchHTTPService.doQuery) and the organization-invite workflow handlers
(AddOrgInvite, inviteExistingUserToOrg, RevokeInvite, GetInviteInfoByCode,
CompleteInvite, updateTempUserStatus, applyUserInvite).

External collaborators (the search engine, the SQL-backed temp-user/org
store, the email service, the access-control evaluator, the session login)
are not part of the source file; they are passed in as explicit oracle
values/functions, and the persistent store is threaded as an explicit state.
Store operations whose code is not in the repository excerpt are modelled
from the spec and marked as such in their doc comments. Handlers also return
a trace of the collaborator commands they issued, in order, so that
frame/effect claims (which commands were issued, which were not) can be
stated.
-/

namespace Grafana

/-- A JSON scalar appearing in a response body object. -/
inductive JsonVal where
  | str (s : String)
  | num (n : Nat)
deriving DecidableEq, Repr

/-- A data frame as returned by the search engine (data.Frame): a name and an
opaque list of serialized fields. -/
structure Frame where
  name : String
  fields : List String
deriving DecidableEq, Repr

/-- The body of an HTTP response produced by the handlers: a message
(response.Error / response.Success), a JSON object with named fields
(response.JSON of a util.DynMap or a dtos struct), or a serialized data
frame (response.JSON of Frame.MarshalJSON output; since marshalling an
in-memory frame is deterministic and total, the serialized frame is
represented by the frame value itself and the unreachable marshal-error
branch of the Go code is dropped). -/
inductive RespBody where
  | msg (m : String)
  | obj (fields : List (String × JsonVal))
  | frame (f : Frame)
deriving DecidableEq, Repr

/-- An HTTP response: status code and body. -/
structure Response where
  status : Nat
  body : RespBody
deriving DecidableEq, Repr

/-- response.Error: an error response with the given HTTP status and message. -/
def Response.err (status : Nat) (m : String) : Response :=
  ⟨status, RespBody.msg m⟩

/-- response.Success: a 200 response with a message body. -/
def Response.success (m : String) : Response :=
  ⟨200, RespBody.msg m⟩

/-- Look up a named field of a JSON-object response body. -/
def RespBody.field : RespBody → String → Option JsonVal
  | RespBody.obj fields, k => (fields.find? (fun p => p.1 == k)).map Prod.snd
  | _, _ => none

/-! ## Search proxy (searchHTTPService.doQuery) -/

/-- The search service readiness check result (IsSearchReadyResponse):
a flag and, when not ready, a reason label for the metrics counter. -/
structure IsReadyResponse where
  isReady : Bool
  reason : String
deriving DecidableEq, Repr

/-- DashboardQuery: the parsed search request body. Its fields are opaque to
the proxy, which only forwards it; modelled as the raw query text. -/
structure DashboardQuery where
  query : String
deriving DecidableEq, Repr

/-- The search engine response (doDashboardQuery result): an optional error
and a list of result frames. -/
structure DashboardQueryResult where
  error : Option String
  frames : List Frame
deriving DecidableEq, Repr

/-- The empty placeholder frame served while the search index warms up. -/
def loadingFrame : Frame := ⟨"Loading", []⟩

/-- searchHTTPService.doQuery. Inputs: the readiness check result, the
outcome of reading the request body (io.ReadAll), the JSON body parser
(json.Unmarshal into DashboardQuery; none = parse error), and the search
engine (doDashboardQuery). Output: the HTTP response together with the list
of reason labels by which dashboardSearchNotServedRequestsCounter was
incremented during the call (one entry per increment). -/
def doQuery (isReadyResp : IsReadyResponse) (body : Except Unit String)
    (parseBody : String → Option DashboardQuery)
    (doDashboardQuery : DashboardQuery → DashboardQueryResult) :
    Response × List String :=
  if !isReadyResp.isReady then
    (⟨200, RespBody.frame loadingFrame⟩, [isReadyResp.reason])
  else
    match body with
    | Except.error _ => (Response.err 500 "error reading bytes", [])
    | Except.ok bodyStr =>
      match parseBody bodyStr with
      | none => (Response.err 400 "error parsing body", [])
      | some query =>
        let resp := doDashboardQuery query
        if resp.error.isSome then
          (Response.err 500 "error handling search request", [])
        else
          match resp.frames with
          | [f] => (⟨200, RespBody.frame f⟩, [])
          | _ => (Response.err 500 "invalid search response", [])

/-! ## Invite workflow: data model -/

/-- Org role hierarchy. Modelled from the spec: roles are ordered
(viewer below editor below admin) and the create-invite check rejects a
requested role strictly higher than the caller's own. The models.RoleType
source is not part of this excerpt. -/
inductive RoleType where
  | viewer
  | editor
  | admin
deriving DecidableEq, Repr

/-- Rank of a role in the hierarchy. -/
def RoleType.rank : RoleType → Nat
  | RoleType.viewer => 0
  | RoleType.editor => 1
  | RoleType.admin => 2

/-- RoleType.Includes: whether role r covers role o (o is not strictly
higher than r). -/
def RoleType.includes (r o : RoleType) : Bool :=
  o.rank ≤ r.rank

/-- The requested role arrives as a string in the request body;
RoleType.IsValid holds exactly when it names one of the three roles.
Parsing yields the role when valid. -/
def parseRole : String → Option RoleType
  | "Viewer" => some RoleType.viewer
  | "Editor" => some RoleType.editor
  | "Admin" => some RoleType.admin
  | _ => none

/-- Invite (temp user) status. Modelled from the spec: status is one of
pending, completed, revoked; pending is the only non-terminal state. -/
inductive TempUserStatus where
  | pending
  | completed
  | revoked
deriving DecidableEq, Repr

/-- The status name as printed into response messages. -/
def TempUserStatus.toStr : TempUserStatus → String
  | TempUserStatus.pending => "pending"
  | TempUserStatus.completed => "completed"
  | TempUserStatus.revoked => "revoked"

/-- An invite record (models.TempUserDTO): unique code, target email and
display name, role offered, organization, inviting user identity fields,
status, and the email-sent audit flag. -/
structure TempUser where
  id : Nat
  orgId : Nat
  code : String
  status : TempUserStatus
  email : String
  name : String
  role : RoleType
  invitedByName : String
  invitedByLogin : String
  invitedByEmail : String
  emailSent : Bool
deriving DecidableEq, Repr

/-- Copy of a temp user with a new status (all other fields unchanged). -/
def TempUser.withStatus (t : TempUser) (st : TempUserStatus) : TempUser :=
  ⟨t.id, t.orgId, t.code, st, t.email, t.name, t.role,
    t.invitedByName, t.invitedByLogin, t.invitedByEmail, t.emailSent⟩

/-- Copy of a temp user with the email-sent flag set. -/
def TempUser.withEmailSent (t : TempUser) : TempUser :=
  ⟨t.id, t.orgId, t.code, t.status, t.email, t.name, t.role,
    t.invitedByName, t.invitedByLogin, t.invitedByEmail, true⟩

/-- An org membership row: at most one per (org, user) pair. -/
structure OrgUser where
  orgId : Nat
  userId : Nat
  role : RoleType
deriving DecidableEq, Repr

/-- A user account (user.User). -/
structure User where
  id : Nat
  email : String
  name : String
  login : String
deriving DecidableEq, Repr

/-- user.NameOrFallback: the display name, falling back to login then email. -/
def User.nameOrFallback (u : User) : String :=
  if u.name ≠ "" then u.name else if u.login ≠ "" then u.login else u.email

/-- util.StringsFallback2: first non-empty of two strings. -/
def stringsFallback2 (a b : String) : String :=
  if a ≠ "" then a else b

/-- util.StringsFallback3: first non-empty of three strings. -/
def stringsFallback3 (a b c : String) : String :=
  if a ≠ "" then a else if b ≠ "" then b else c

/-- The persistent store state visible to these handlers: invite (temp user)
records, org membership rows, and each user's active org (userId, orgId). -/
structure Store where
  tempUsers : List TempUser
  orgUsers : List OrgUser
  activeOrg : List (Nat × Nat)
deriving DecidableEq, Repr

/-- Errors a store call can surface: the not-found sentinel or any other
failure (mapped by the handlers to a generic 500). -/
inductive StoreErr where
  | notFound
  | other
deriving DecidableEq, Repr

/-- Modelled from the spec: tempUserService.GetTempUserByCode — look up the
invite record by its code; the not-found sentinel when no record has the
code. -/
def getTempUserByCode (s : Store) (code : String) : Except StoreErr TempUser :=
  match s.tempUsers.find? (fun t => t.code == code) with
  | some t => Except.ok t
  | none => Except.error StoreErr.notFound

/-- Whether an org membership row exists for the (org, user) pair. -/
def membershipExists (s : Store) (orgId userId : Nat) : Bool :=
  s.orgUsers.any (fun ou => ou.orgId == orgId && ou.userId == userId)

/-- Errors of the AddOrgUser store call: the already-added sentinel
(models.ErrOrgUserAlreadyAdded) or any other failure. -/
inductive AddOrgUserErr where
  | alreadyAdded
  | other
deriving DecidableEq, Repr

/-- Modelled from the spec: SQLStore.AddOrgUser — add an org membership row;
duplicate-add for an existing (org, user) pair is the recoverable
already-added conflict. The fail flag injects a transport-level failure
(the call errs, state unchanged). -/
def addOrgUser (fail : Bool) (s : Store) (orgId userId : Nat) (role : RoleType) :
    Except AddOrgUserErr Store :=
  if fail then Except.error AddOrgUserErr.other
  else if membershipExists s orgId userId then Except.error AddOrgUserErr.alreadyAdded
  else Except.ok ⟨s.tempUsers, ⟨orgId, userId, role⟩ :: s.orgUsers, s.activeOrg⟩

/-- The record list with the status of every record carrying the given code
replaced (the net effect of a successful status update). -/
def mapStatus (l : List TempUser) (code : String) (st : TempUserStatus) : List TempUser :=
  l.map (fun u => if u.code == code then u.withStatus st else u)

/-- Modelled from the spec: tempUserService.UpdateTempUserStatus — the
invite state machine permits only pending to terminal transitions; an
unknown code or a record already in a terminal state is a generic update
failure, and the record is not altered. The fail flag injects a
transport-level failure. -/
def storeUpdateTempUserStatus (fail : Bool) (s : Store) (code : String)
    (st : TempUserStatus) : Except StoreErr Store :=
  if fail then Except.error StoreErr.other
  else
    match s.tempUsers.find? (fun t => t.code == code) with
    | none => Except.error StoreErr.notFound
    | some t =>
      if t.status == TempUserStatus.pending then
        Except.ok ⟨mapStatus s.tempUsers code st, s.orgUsers, s.activeOrg⟩
      else Except.error StoreErr.other

/-- Modelled from the spec: tempUserService.CreateTempUser — append a new
invite record. The fail flag injects a transport-level failure. -/
def createTempUser (fail : Bool) (s : Store) (t : TempUser) : Except Unit Store :=
  if fail then Except.error ()
  else Except.ok ⟨t :: s.tempUsers, s.orgUsers, s.activeOrg⟩

/-- Modelled from the spec: tempUserService.UpdateTempUserWithEmailSent —
set the email-sent audit flag of the record with the given code (not a
status transition). -/
def updateTempUserWithEmailSent (fail : Bool) (s : Store) (code : String) :
    Except Unit Store :=
  if fail then Except.error ()
  else Except.ok ⟨s.tempUsers.map (fun u => if u.code == code then u.withEmailSent else u),
    s.orgUsers, s.activeOrg⟩

/-- Modelled from the spec: SQLStore.SetUsingOrg — record the org as the
user's active organization. -/
def setUsingOrg (s : Store) (orgId userId : Nat) : Store :=
  ⟨s.tempUsers, s.orgUsers, (userId, orgId) :: s.activeOrg.filter (fun p => p.1 ≠ userId)⟩

/-! ## Invite workflow: request forms, caller context, collaborator oracles -/

/-- dtos.AddInviteForm: the create-invite request body. The role arrives as
a string and is validated by parseRole. -/
structure AddInviteForm where
  loginOrEmail : String
  role : String
  name : String
  sendEmail : Bool
deriving DecidableEq, Repr

/-- dtos.CompleteInviteForm: the complete-invite (signup) request body. -/
structure CompleteInviteForm where
  inviteCode : String
  email : String
  name : String
  username : String
  password : String
deriving DecidableEq, Repr

/-- The authenticated request context (models.ReqContext): caller identity
and org scope. -/
structure ReqContext where
  orgId : Nat
  userId : Nat
  orgRole : RoleType
  isGrafanaAdmin : Bool
  orgName : String
  name : String
  email : String
  login : String
deriving DecidableEq, Repr

/-- Errors of the user-store lookup (userService.GetByLogin): the
user.ErrUserNotFound sentinel or any other failure. -/
inductive UserLookupErr where
  | notFound
  | other
deriving DecidableEq, Repr

/-- Errors of user creation (Login.CreateUser): the
user.ErrUserAlreadyExists sentinel or any other failure. -/
inductive CreateUserErr where
  | alreadyExists
  | other
deriving DecidableEq, Repr

/-- Errors of email sending (NotificationService.SendEmailCommandHandler):
the models.ErrSmtpNotEnabled sentinel or any other failure. -/
inductive EmailErr where
  | smtpNotEnabled
  | other
deriving DecidableEq, Repr

/-- Outcomes of the external collaborators of the invite handlers, passed
in explicitly: each field fixes what the corresponding external call
returns during the handled request. Store mutations themselves are threaded
through the Store state; the fail flags inject transport-level store
failures. -/
structure Env where
  getUserByLogin : String → Except UserLookupErr User
  evaluate : Nat → Except Unit Bool
  disableLoginForm : Bool
  randomCode : Except Unit String
  createTempUserFail : Bool
  sendInviteEmail : Except EmailErr Unit
  sendOrgEmail : Except Unit Unit
  emailSentUpdateFail : Bool
  isEmail : String → Bool
  createUser : CompleteInviteForm → Except CreateUserErr User
  publishOk : Bool
  loginOk : Bool
  addOrgUserFail : Bool
  updateStatusFail : Bool
  setUsingOrgFail : Bool

/-- A collaborator command issued by a handler, recorded in issue order. -/
inductive Cmd where
  | addOrgUserCmd (orgId userId : Nat) (role : RoleType)
  | createTempUserCmd (orgId : Nat) (email : String)
  | updateStatusCmd (code : String) (st : TempUserStatus)
  | setUsingOrgCmd (orgId userId : Nat)
  | emailSentCmd (code : String)
  | sendEmailCmd (template : String)
  | createUserCmd (login : String)
  | publishCmd
  | loginCmd (userId : Nat)
deriving DecidableEq, Repr

/-! ## Invite workflow: handlers -/

/-- HTTPServer.GetInviteInfoByCode: look up a pending invite by code; 404
when absent or not pending, otherwise 200 with the dtos.InviteInfo object. -/
def GetInviteInfoByCode (s : Store) (code : String) : Response :=
  match getTempUserByCode s code with
  | Except.error StoreErr.notFound => Response.err 404 "Invite not found"
  | Except.error StoreErr.other => Response.err 500 "Failed to get invite"
  | Except.ok invite =>
    if invite.status ≠ TempUserStatus.pending then
      Response.err 404 "Invite not found"
    else
      ⟨200, RespBody.obj [("email", JsonVal.str invite.email),
        ("name", JsonVal.str invite.name),
        ("username", JsonVal.str invite.email),
        ("invitedBy", JsonVal.str (stringsFallback3 invite.invitedByName
          invite.invitedByLogin invite.invitedByEmail))]⟩

/-- HTTPServer.updateTempUserStatus: issue the status update; any store
error becomes the generic 500 update-failure response. -/
def updateTempUserStatus (fail : Bool) (s : Store) (code : String)
    (status : TempUserStatus) : Except Response Store :=
  match storeUpdateTempUserStatus fail s code status with
  | Except.error _ => Except.error (Response.err 500 "Failed to update invite status")
  | Except.ok s2 => Except.ok s2

/-- HTTPServer.RevokeInvite: transition the invite with the given code to
revoked; on any update failure return the helper's response with the store
unchanged. -/
def RevokeInvite (fail : Bool) (s : Store) (code : String) : Response × Store :=
  match updateTempUserStatus fail s code TempUserStatus.revoked with
  | Except.error rsp => (rsp, s)
  | Except.ok s2 => (Response.success "Invite revoked", s2)

/-- Result of applyUserInvite: the Go (ok, response) pair, plus the store
state reached so far and the trace of issued commands. -/
structure ApplyResult where
  ok : Bool
  rsp : Option Response
  store : Store
  trace : List Cmd
deriving Repr

/-- Continuation of applyUserInvite after the AddOrgUser step (which the Go
code falls through to both when the add succeeded and when it hit the
tolerated already-added sentinel): transition the invite to completed, then
optionally set the invited org active. -/
def applyUserInviteFrom (env : Env) (s : Store) (usr : User) (invite : TempUser)
    (setActive : Bool) (tr : List Cmd) : ApplyResult :=
  let tr2 := tr ++ [Cmd.updateStatusCmd invite.code TempUserStatus.completed]
  match updateTempUserStatus env.updateStatusFail s invite.code TempUserStatus.completed with
  | Except.error rsp => ⟨false, some rsp, s, tr2⟩
  | Except.ok s2 =>
    if setActive then
      let tr3 := tr2 ++ [Cmd.setUsingOrgCmd invite.orgId usr.id]
      if env.setUsingOrgFail then
        ⟨false, some (Response.err 500 "Failed to set org as active"), s2, tr3⟩
      else ⟨true, none, setUsingOrg s2 invite.orgId usr.id, tr3⟩
    else ⟨true, none, s2, tr2⟩

/-- HTTPServer.applyUserInvite: add the org membership (tolerating the
already-added sentinel), transition the invite to completed, and when
setActive holds set the invited org as the user's active org. Each step can
fail; a failure returns immediately with the state reached so far. -/
def applyUserInvite (env : Env) (s : Store) (usr : User) (invite : TempUser)
    (setActive : Bool) : ApplyResult :=
  let tr1 := [Cmd.addOrgUserCmd invite.orgId usr.id invite.role]
  match addOrgUser env.addOrgUserFail s invite.orgId usr.id invite.role with
  | Except.error AddOrgUserErr.other =>
    ⟨false, some (Response.err 500 "Error while trying to create org user"), s, tr1⟩
  | Except.error AddOrgUserErr.alreadyAdded =>
    applyUserInviteFrom env s usr invite setActive tr1
  | Except.ok s1 => applyUserInviteFrom env s1 usr invite setActive tr1

/-- HTTPServer.CompleteInvite: bind the form (none = bind failure, 400);
look up the invite by code (404 when the not-found sentinel, 500 on other
store errors); require pending status (else 412 naming the current status);
create the user (412 when it already exists, 500 on other errors); publish
the signup-completed event (500 on failure); apply the invite (see
applyUserInvite, with setActive); log the user in (500 on failure); finally
200 with a message and the new user id. -/
def CompleteInvite (env : Env) (s : Store) (form : Option CompleteInviteForm) :
    Response × Store × List Cmd :=
  match form with
  | none => (Response.err 400 "bad request data", s, [])
  | some completeInvite =>
    match getTempUserByCode s completeInvite.inviteCode with
    | Except.error StoreErr.notFound => (Response.err 404 "Invite not found", s, [])
    | Except.error StoreErr.other => (Response.err 500 "Failed to get invite", s, [])
    | Except.ok invite =>
      if invite.status ≠ TempUserStatus.pending then
        (Response.err 412 ("Invite cannot be used in status " ++ invite.status.toStr), s, [])
      else
        let tr1 := [Cmd.createUserCmd completeInvite.username]
        match env.createUser completeInvite with
        | Except.error CreateUserErr.alreadyExists =>
          (Response.err 412 ("User with email " ++ completeInvite.email ++
            " or username " ++ completeInvite.username ++ " already exists"), s, tr1)
        | Except.error CreateUserErr.other =>
          (Response.err 500 "failed to create user", s, tr1)
        | Except.ok usr =>
          let tr2 := tr1 ++ [Cmd.publishCmd]
          if !env.publishOk then
            (Response.err 500 "failed to publish event", s, tr2)
          else
            let ar := applyUserInvite env s usr invite true
            if !ar.ok then
              (ar.rsp.getD (Response.err 500 "failed to accept invite"),
                ar.store, tr2 ++ ar.trace)
            else
              let tr3 := tr2 ++ ar.trace ++ [Cmd.loginCmd usr.id]
              if !env.loginOk then
                (Response.err 500 "failed to accept invite", ar.store, tr3)
              else
                (⟨200, RespBody.obj [("message", JsonVal.str "User created and logged in"),
                  ("id", JsonVal.num usr.id)]⟩, ar.store, tr3)

/-- HTTPServer.inviteExistingUserToOrg: add the existing user to the org
(412 on the already-added sentinel, 500 on other errors), optionally send
the invited_to_org email, and answer 200 with a message and the user id
under the key userId. -/
def inviteExistingUserToOrg (env : Env) (c : ReqContext) (s : Store) (usr : User)
    (inviteDto : AddInviteForm) (role : RoleType) : Response × Store × List Cmd :=
  let tr1 := [Cmd.addOrgUserCmd c.orgId usr.id role]
  match addOrgUser env.addOrgUserFail s c.orgId usr.id role with
  | Except.error AddOrgUserErr.alreadyAdded =>
    (Response.err 412 ("User " ++ inviteDto.loginOrEmail ++
      " is already added to organization"), s, tr1)
  | Except.error AddOrgUserErr.other =>
    (Response.err 500 "Error while trying to create org user", s, tr1)
  | Except.ok s1 =>
    if inviteDto.sendEmail && env.isEmail usr.email then
      let tr2 := tr1 ++ [Cmd.sendEmailCmd "invited_to_org"]
      match env.sendOrgEmail with
      | Except.error _ => (Response.err 500 "Failed to send email invited_to_org", s1, tr2)
      | Except.ok _ =>
        (⟨200, RespBody.obj [("message", JsonVal.str ("Existing Grafana user " ++
          usr.nameOrFallback ++ " added to org " ++ c.orgName)),
          ("userId", JsonVal.num usr.id)]⟩, s1, tr2)
    else
      (⟨200, RespBody.obj [("message", JsonVal.str ("Existing Grafana user " ++
        usr.nameOrFallback ++ " added to org " ++ c.orgName)),
        ("userId", JsonVal.num usr.id)]⟩, s1, tr1)

/-- HTTPServer.AddOrgInvite: bind the form (none = bind failure, 400);
validate the role string (400); reject a role the caller's own role does
not include unless the caller is a Grafana admin (403); look the user up by
login/email — for an existing user evaluate access control and delegate to
inviteExistingUserToOrg; otherwise (not-found sentinel) create a pending
invite record with a fresh random code and optionally send the invite
email. -/
def AddOrgInvite (env : Env) (c : ReqContext) (s : Store) (form : Option AddInviteForm) :
    Response × Store × List Cmd :=
  match form with
  | none => (Response.err 400 "bad request data", s, [])
  | some inviteDto =>
    match parseRole inviteDto.role with
    | none => (Response.err 400 "Invalid role specified", s, [])
    | some role =>
      if !(c.orgRole.includes role) && !c.isGrafanaAdmin then
        (Response.err 403 "Cannot assign a role higher than user role", s, [])
      else
        match env.getUserByLogin inviteDto.loginOrEmail with
        | Except.error UserLookupErr.other =>
          (Response.err 500 "Failed to query db for existing user check", s, [])
        | Except.ok usr =>
          match env.evaluate usr.id with
          | Except.error _ => (Response.err 500 "Failed to evaluate permissions", s, [])
          | Except.ok hasAccess =>
            if !hasAccess then
              (Response.err 403
                "Permission denied: not permitted to add an existing user to this organisation",
                s, [])
            else inviteExistingUserToOrg env c s usr inviteDto role
        | Except.error UserLookupErr.notFound =>
          if env.disableLoginForm then
            (Response.err 400 "Cannot invite when login is disabled.", s, [])
          else
            match env.randomCode with
            | Except.error _ => (Response.err 500 "Could not generate random string", s, [])
            | Except.ok code =>
              let cmd : TempUser := ⟨0, c.orgId, code, TempUserStatus.pending,
                inviteDto.loginOrEmail, inviteDto.name, role, c.name, c.login, c.email, false⟩
              let tr1 := [Cmd.createTempUserCmd c.orgId inviteDto.loginOrEmail]
              match createTempUser env.createTempUserFail s cmd with
              | Except.error _ => (Response.err 500 "Failed to save invite to database", s, tr1)
              | Except.ok s1 =>
                if inviteDto.sendEmail && env.isEmail inviteDto.loginOrEmail then
                  let tr2 := tr1 ++ [Cmd.sendEmailCmd "new_user_invite"]
                  match env.sendInviteEmail with
                  | Except.error EmailErr.smtpNotEnabled =>
                    (Response.err 412 "SMTP not enabled", s1, tr2)
                  | Except.error EmailErr.other =>
                    (Response.err 500 "Failed to send email invite", s1, tr2)
                  | Except.ok _ =>
                    let tr3 := tr2 ++ [Cmd.emailSentCmd code]
                    match updateTempUserWithEmailSent env.emailSentUpdateFail s1 code with
                    | Except.error _ =>
                      (Response.err 500 "Failed to update invite with email sent info", s1, tr3)
                    | Except.ok s2 =>
                      (Response.success ("Sent invite to " ++ inviteDto.loginOrEmail), s2, tr3)
                else
                  (Response.success ("Created invite for " ++ inviteDto.loginOrEmail), s1, tr1)

/-! ## Concrete fixtures used by witnesses and counterexamples -/

/-- A pending invite record. -/
def invPending : TempUser :=
  ⟨1, 2, "abc", TempUserStatus.pending, "alice@example.org", "Alice",
    RoleType.editor, "Boss", "boss", "boss@example.org", false⟩

/-- The same invite once completed. -/
def invCompleted : TempUser := invPending.withStatus TempUserStatus.completed

/-- A store holding one pending invite. -/
def storePending : Store := ⟨[invPending], [], []⟩

/-- A store holding one completed invite. -/
def storeCompleted : Store := ⟨[invCompleted], [], []⟩

/-- The account created for the invited signup. -/
def newUser : User := ⟨7, "new@example.org", "New", "newlogin"⟩

/-- A complete-invite form for the pending invite's code. -/
def formOne : CompleteInviteForm := ⟨"abc", "new@example.org", "New", "newlogin", "pw"⟩

/-- An oracle environment in which every collaborator call succeeds: user
lookup hits the not-found sentinel, access control approves, user creation
yields newUser, and no injected store failure. -/
def okEnv : Env :=
  ⟨fun _ => Except.error UserLookupErr.notFound, fun _ => Except.ok true, false,
    Except.ok "code30", false, Except.ok (), Except.ok (), false, fun _ => true,
    fun _ => Except.ok newUser, true, true, false, false, false⟩

/-- A create-invite form with an unknown role string. -/
def badRoleForm : AddInviteForm := ⟨"x@example.org", "Superuser", "X", false⟩

/-- A create-invite form asking for the Admin role. -/
def highRoleForm : AddInviteForm := ⟨"x@example.org", "Admin", "X", false⟩

/-- A create-invite form asking for the Viewer role, without email. -/
def viewerRoleForm : AddInviteForm := ⟨"bob@example.org", "Viewer", "Bob", false⟩

/-- A non-admin caller whose org role is Viewer. -/
def viewerCtx : ReqContext := ⟨2, 5, RoleType.viewer, false, "Org2", "Ann", "ann@example.org", "ann"⟩

/-- An already registered user hit by the create-invite lookup. -/
def existingUser : User := ⟨9, "bob@example.org", "Bob", "bob"⟩

/-- A store in which newUser is already a member of org 2, which also holds
the pending invite. -/
def storeMember : Store := ⟨[invPending], [⟨2, 7, RoleType.editor⟩], []⟩

/-- A store in which existingUser is already a member of org 2. -/
def storeBobMember : Store := ⟨[invPending], [⟨2, 9, RoleType.viewer⟩], []⟩

/-- Like okEnv but the user lookup finds existingUser. -/
def envExisting : Env :=
  ⟨fun _ => Except.ok existingUser, fun _ => Except.ok true, false,
    Except.ok "code30", false, Except.ok (), Except.ok (), false, fun _ => true,
    fun _ => Except.ok newUser, true, true, false, false, false⟩

/-- Like envExisting but access control denies. -/
def envDeny : Env :=
  ⟨fun _ => Except.ok existingUser, fun _ => Except.ok false, false,
    Except.ok "code30", false, Except.ok (), Except.ok (), false, fun _ => true,
    fun _ => Except.ok newUser, true, true, false, false, false⟩

/-- Like okEnv but AddOrgUser fails with a non-sentinel store error. -/
def envAddFail : Env :=
  ⟨fun _ => Except.error UserLookupErr.notFound, fun _ => Except.ok true, false,
    Except.ok "code30", false, Except.ok (), Except.ok (), false, fun _ => true,
    fun _ => Except.ok newUser, true, true, true, false, false⟩

/-- Like okEnv but UpdateTempUserStatus fails. -/
def envUpdFail : Env :=
  ⟨fun _ => Except.error UserLookupErr.notFound, fun _ => Except.ok true, false,
    Except.ok "code30", false, Except.ok (), Except.ok (), false, fun _ => true,
    fun _ => Except.ok newUser, true, true, false, true, false⟩

/-- Like okEnv but SetUsingOrg fails. -/
def envSetFail : Env :=
  ⟨fun _ => Except.error UserLookupErr.notFound, fun _ => Except.ok true, false,
    Except.ok "code30", false, Except.ok (), Except.ok (), false, fun _ => true,
    fun _ => Except.ok newUser, true, true, false, false, true⟩

/-- Like okEnv but the session login fails. -/
def envLoginFail : Env :=
  ⟨fun _ => Except.error UserLookupErr.notFound, fun _ => Except.ok true, false,
    Except.ok "code30", false, Except.ok (), Except.ok (), false, fun _ => true,
    fun _ => Except.ok newUser, true, false, false, false, false⟩

/-- The org membership rows after the AddOrgUser step of applyUserInvite:
unchanged when the (org, user) pair already exists (the tolerated
already-added sentinel), one new row otherwise. -/
def addMembership (s : Store) (orgId userId : Nat) (role : RoleType) : List OrgUser :=
  if membershipExists s orgId userId then s.orgUsers
  else ⟨orgId, userId, role⟩ :: s.orgUsers

/-! ## Store lemmas -/

/-- The modelled store lookup only fails with the not-found sentinel. -/
theorem getTempUserByCode_ne_other (s : Store) (code : String) :
    getTempUserByCode s code ≠ Except.error StoreErr.other := by
  unfold getTempUserByCode
  cases h : s.tempUsers.find? (fun t => t.code == code) <;> simp

/-- The store lookup succeeds exactly when the record list holds a first
record with the code. -/
theorem getTempUserByCode_ok_iff (s : Store) (code : String) (t : TempUser) :
    getTempUserByCode s code = Except.ok t ↔
      s.tempUsers.find? (fun t2 => t2.code == code) = some t := by
  unfold getTempUserByCode
  cases h : s.tempUsers.find? (fun t2 => t2.code == code) <;> simp

/-- A record found by code carries that code. -/
theorem getTempUserByCode_code_eq (s : Store) (code : String) (t : TempUser)
    (h : getTempUserByCode s code = Except.ok t) : t.code = code := by
  rw [getTempUserByCode_ok_iff] at h
  have h2 := List.find?_some h
  simpa using h2

/-! ## Claim theorems: search proxy -/

/-- C6: when the readiness check reports not-ready, doQuery returns 200 with
the fixed empty placeholder frame named Loading, independently of the
request body, the body parser and the search engine (so the body is never
read or parsed, and malformed bodies get the same response), and the
not-served counter is incremented exactly once, labelled with the
readiness-failure reason. -/
theorem doQuery_not_ready (isReadyResp : IsReadyResponse) (body : Except Unit String)
    (parseBody : String → Option DashboardQuery)
    (doDashboardQuery : DashboardQuery → DashboardQueryResult)
    (h : isReadyResp.isReady = false) :
    doQuery isReadyResp body parseBody doDashboardQuery =
      (⟨200, RespBody.frame loadingFrame⟩, [isReadyResp.reason]) := by
  simp [doQuery, h]

/-- Witness for C6 at a concrete not-ready readiness result, an unreadable
body, a parser that always fails and an engine that returns no frames. -/
theorem doQuery_not_ready_witness :
    doQuery ⟨false, "initial-indexing-ongoing"⟩ (Except.error ()) (fun _ => none)
        (fun _ => ⟨none, []⟩) =
      (⟨200, RespBody.frame loadingFrame⟩, ["initial-indexing-ongoing"]) :=
  doQuery_not_ready ⟨false, "initial-indexing-ongoing"⟩ (Except.error ()) (fun _ => none)
    (fun _ => ⟨none, []⟩) rfl

/-- C7: for a request that reaches the search engine (ready, body read,
parsed, no engine error), a frame count different from one yields the 500
invalid-search-response error (no frame is ever serialized as a partial
success), and exactly one frame yields 200 with that frame as the body. -/
theorem doQuery_single_frame (isReadyResp : IsReadyResponse) (bodyStr : String)
    (parseBody : String → Option DashboardQuery)
    (doDashboardQuery : DashboardQuery → DashboardQueryResult) (query : DashboardQuery)
    (hready : isReadyResp.isReady = true)
    (hparse : parseBody bodyStr = some query)
    (herr : (doDashboardQuery query).error = none) :
    ((doDashboardQuery query).frames.length ≠ 1 →
      (doQuery isReadyResp (Except.ok bodyStr) parseBody doDashboardQuery).1 =
        Response.err 500 "invalid search response") ∧
    (∀ f, (doDashboardQuery query).frames = [f] →
      (doQuery isReadyResp (Except.ok bodyStr) parseBody doDashboardQuery).1 =
        ⟨200, RespBody.frame f⟩) := by
  have hq : doQuery isReadyResp (Except.ok bodyStr) parseBody doDashboardQuery =
      (match (doDashboardQuery query).frames with
        | [f] => (⟨200, RespBody.frame f⟩, ([] : List String))
        | _ => (Response.err 500 "invalid search response", [])) := by
    unfold doQuery
    rw [hready]
    simp [hparse, herr]
  rw [hq]
  constructor
  · intro hne
    rcases hf : (doDashboardQuery query).frames with _ | ⟨a, rest⟩
    · rfl
    · rcases rest with _ | ⟨b, t⟩
      · exact absurd (by simp [hf]) hne
      · rfl
  · intro f hf
    rw [hf]

/-- Witness for C7 at a concrete ready check, trivial parser and an engine
returning zero frames (500) and one frame (200 with that frame). -/
theorem doQuery_single_frame_witness :
    (doQuery ⟨true, ""⟩ (Except.ok "q") (fun s2 => some ⟨s2⟩) (fun _ => ⟨none, []⟩)).1 =
      Response.err 500 "invalid search response" ∧
    (doQuery ⟨true, ""⟩ (Except.ok "q") (fun s2 => some ⟨s2⟩)
      (fun _ => ⟨none, [⟨"dashboards", ["d1"]⟩]⟩)).1 = ⟨200, RespBody.frame ⟨"dashboards", ["d1"]⟩⟩ :=
  ⟨(doQuery_single_frame ⟨true, ""⟩ "q" (fun s2 => some ⟨s2⟩) (fun _ => ⟨none, []⟩)
      ⟨"q"⟩ rfl rfl rfl).1 (by decide),
   (doQuery_single_frame ⟨true, ""⟩ "q" (fun s2 => some ⟨s2⟩)
      (fun _ => ⟨none, [⟨"dashboards", ["d1"]⟩]⟩) ⟨"q"⟩ rfl rfl rfl).2
      ⟨"dashboards", ["d1"]⟩ rfl⟩

/-! ## Claim theorems: invite info lookup -/

/-- C1: GetInviteInfoByCode answers the fixed 404 not-found response (whose
body is a constant message carrying none of the invite's content) both when
no record has the code and when the record with the code is not pending. -/
theorem GetInviteInfoByCode_non_pending (s : Store) (code : String) :
    (getTempUserByCode s code = Except.error StoreErr.notFound →
      GetInviteInfoByCode s code = Response.err 404 "Invite not found") ∧
    (∀ invite, getTempUserByCode s code = Except.ok invite →
      invite.status ≠ TempUserStatus.pending →
      GetInviteInfoByCode s code = Response.err 404 "Invite not found") := by
  constructor
  · intro h
    unfold GetInviteInfoByCode
    rw [h]
  · intro invite h hst
    unfold GetInviteInfoByCode
    rw [h]
    simp [hst]

/-- Witness for C1: the completed invite's own code and an unknown code both
get the fixed 404 response. -/
theorem GetInviteInfoByCode_non_pending_witness :
    GetInviteInfoByCode storeCompleted "abc" = Response.err 404 "Invite not found" ∧
    GetInviteInfoByCode storeCompleted "nope" = Response.err 404 "Invite not found" :=
  ⟨(GetInviteInfoByCode_non_pending storeCompleted "abc").2 invCompleted rfl (by decide),
   (GetInviteInfoByCode_non_pending storeCompleted "nope").1 rfl⟩

/-- C10: in every successful (200) fetch-invite-info response the username
field equals the email field: both are populated from the invite's stored
email. -/
theorem GetInviteInfoByCode_username_is_email (s : Store) (code : String)
    (h : (GetInviteInfoByCode s code).status = 200) :
    (GetInviteInfoByCode s code).body.field "username" =
      (GetInviteInfoByCode s code).body.field "email" := by
  unfold GetInviteInfoByCode at h ⊢
  cases hq : getTempUserByCode s code with
  | error e =>
    rw [hq] at h
    cases e <;> simp [Response.err] at h
  | ok invite =>
    rw [hq] at h
    by_cases hst : invite.status = TempUserStatus.pending
    · obtain ⟨i1, i2, i3, st, i5, i6, i7, i8, i9, i10, i11⟩ := invite
      change st = TempUserStatus.pending at hst
      subst hst
      rfl
    · simp [hst, Response.err] at h

/-- Witness for C10 at the pending store: both fields hold the stored
email. -/
theorem GetInviteInfoByCode_username_is_email_witness :
    (GetInviteInfoByCode storePending "abc").body.field "username" =
      (GetInviteInfoByCode storePending "abc").body.field "email" :=
  GetInviteInfoByCode_username_is_email storePending "abc" rfl

/-! ## Claim theorems: revoke -/

/-- C8: revoking a code whose invite is already completed leaves the store
(hence that invite's status) unchanged and surfaces the generic 500
update-failure response; moreover on every input RevokeInvite answers
either the success message or that same generic 500 — never a 404 and never
a distinct already-revoked error. -/
theorem RevokeInvite_terminal (s : Store) (code : String) (invite : TempUser)
    (hfind : getTempUserByCode s code = Except.ok invite)
    (hst : invite.status = TempUserStatus.completed) :
    RevokeInvite false s code = (Response.err 500 "Failed to update invite status", s) ∧
    (∀ fail s2 c2, (RevokeInvite fail s2 c2).1 = Response.success "Invite revoked" ∨
      (RevokeInvite fail s2 c2).1 = Response.err 500 "Failed to update invite status") := by
  constructor
  · have h : storeUpdateTempUserStatus false s code TempUserStatus.revoked =
        Except.error StoreErr.other := by
      rw [getTempUserByCode_ok_iff] at hfind
      unfold storeUpdateTempUserStatus
      simp [hfind, hst]
    unfold RevokeInvite updateTempUserStatus
    rw [h]
  · intro fail s2 c2
    unfold RevokeInvite updateTempUserStatus
    cases h : storeUpdateTempUserStatus fail s2 c2 TempUserStatus.revoked <;> simp

/-- Witness for C8: revoking the completed invite's code answers the generic
500 and leaves the store as it was. -/
theorem RevokeInvite_terminal_witness :
    RevokeInvite false storeCompleted "abc" =
      (Response.err 500 "Failed to update invite status", storeCompleted) :=
  (RevokeInvite_terminal storeCompleted "abc" invCompleted rfl rfl).1

/-! ## Claim theorems: create invite, role gate -/

/-- C4: a create-invite request whose role string is not well-formed gets
400; a well-formed role the caller's own role does not include, for a
caller who is not a Grafana admin, gets 403 — in both cases with the store
unchanged and no collaborator command issued (no invite record, no
membership). -/
theorem AddOrgInvite_role_gate (env : Env) (c : ReqContext) (s : Store)
    (inviteDto : AddInviteForm) :
    (parseRole inviteDto.role = none →
      AddOrgInvite env c s (some inviteDto) =
        (Response.err 400 "Invalid role specified", s, [])) ∧
    (∀ role, parseRole inviteDto.role = some role →
      c.orgRole.includes role = false → c.isGrafanaAdmin = false →
      AddOrgInvite env c s (some inviteDto) =
        (Response.err 403 "Cannot assign a role higher than user role", s, [])) := by
  constructor
  · intro h
    simp [AddOrgInvite, h]
  · intro role h hinc hadmin
    simp [AddOrgInvite, h, hinc, hadmin]

/-- Witness for C4: the malformed role gets 400 and the Admin request from a
Viewer gets 403, both without touching the store. -/
theorem AddOrgInvite_role_gate_witness :
    AddOrgInvite okEnv viewerCtx storePending (some badRoleForm) =
      (Response.err 400 "Invalid role specified", storePending, []) ∧
    AddOrgInvite okEnv viewerCtx storePending (some highRoleForm) =
      (Response.err 403 "Cannot assign a role higher than user role", storePending, []) :=
  ⟨(AddOrgInvite_role_gate okEnv viewerCtx storePending badRoleForm).1 rfl,
   (AddOrgInvite_role_gate okEnv viewerCtx storePending highRoleForm).2 RoleType.admin
     rfl rfl rfl⟩

/-! ## Complete-invite flow lemmas -/

/-- Finding by code after a status update finds the updated record. -/
theorem find?_mapStatus (l : List TempUser) (code : String) (st : TempUserStatus) :
    List.find? (fun t => t.code == code) (mapStatus l code st) =
      (List.find? (fun t => t.code == code) l).map (fun u => u.withStatus st) := by
  induction l with
  | nil => rfl
  | cons a l ih =>
    unfold mapStatus at ih ⊢
    rw [List.map_cons, List.find?_cons, List.find?_cons]
    cases ha : a.code == code with
    | true => simp only [ha, if_true, TempUser.withStatus, Option.map_some']
    | false =>
      simp only [ha, Bool.false_eq_true, if_false]
      exact ih

/-- A status update away from a pending record succeeds and maps the record
list. -/
theorem storeUpdateTempUserStatus_pending (s : Store) (code : String) (invite : TempUser)
    (st : TempUserStatus)
    (hfind : List.find? (fun t => t.code == code) s.tempUsers = some invite)
    (hpend : invite.status = TempUserStatus.pending) :
    storeUpdateTempUserStatus false s code st =
      Except.ok ⟨mapStatus s.tempUsers code st, s.orgUsers, s.activeOrg⟩ := by
  unfold storeUpdateTempUserStatus
  simp [hfind, hpend]

/-- After the tolerated AddOrgUser step, the remaining applyUserInvite steps
(status transition, set active org) run through when neither injected
failure is set. -/
theorem applyUserInviteFrom_success (env : Env) (s : Store) (usr : User) (invite : TempUser)
    (tr : List Cmd)
    (hfind : List.find? (fun t => t.code == invite.code) s.tempUsers = some invite)
    (hpend : invite.status = TempUserStatus.pending)
    (hupd : env.updateStatusFail = false) (hset : env.setUsingOrgFail = false) :
    applyUserInviteFrom env s usr invite true tr =
      ⟨true, none,
        ⟨mapStatus s.tempUsers invite.code TempUserStatus.completed, s.orgUsers,
          (usr.id, invite.orgId) :: s.activeOrg.filter (fun p => p.1 ≠ usr.id)⟩,
        tr ++ [Cmd.updateStatusCmd invite.code TempUserStatus.completed,
          Cmd.setUsingOrgCmd invite.orgId usr.id]⟩ := by
  unfold applyUserInviteFrom updateTempUserStatus
  rw [hupd, storeUpdateTempUserStatus_pending s invite.code invite
    TempUserStatus.completed hfind hpend]
  simp [hset, setUsingOrg]

/-- The fully successful applyUserInvite run: membership ensured, invite
completed, invited org set active, commands issued in that order. -/
theorem applyUserInvite_success (env : Env) (s : Store) (usr : User) (invite : TempUser)
    (hfind : List.find? (fun t => t.code == invite.code) s.tempUsers = some invite)
    (hpend : invite.status = TempUserStatus.pending)
    (hadd : env.addOrgUserFail = false) (hupd : env.updateStatusFail = false)
    (hset : env.setUsingOrgFail = false) :
    applyUserInvite env s usr invite true =
      ⟨true, none,
        ⟨mapStatus s.tempUsers invite.code TempUserStatus.completed,
          addMembership s invite.orgId usr.id invite.role,
          (usr.id, invite.orgId) :: s.activeOrg.filter (fun p => p.1 ≠ usr.id)⟩,
        [Cmd.addOrgUserCmd invite.orgId usr.id invite.role,
          Cmd.updateStatusCmd invite.code TempUserStatus.completed,
          Cmd.setUsingOrgCmd invite.orgId usr.id]⟩ := by
  unfold applyUserInvite addOrgUser
  by_cases hm : membershipExists s invite.orgId usr.id
  · rw [hadd]
    simp only [Bool.false_eq_true, if_false, hm, if_true]
    rw [applyUserInviteFrom_success env s usr invite _ hfind hpend hupd hset]
    simp [addMembership, hm]
  · simp only [Bool.not_eq_true] at hm
    rw [hadd]
    simp only [Bool.false_eq_true, if_false, hm]
    rw [applyUserInviteFrom_success env
      ⟨s.tempUsers, ⟨invite.orgId, usr.id, invite.role⟩ :: s.orgUsers, s.activeOrg⟩
      usr invite _ hfind hpend hupd hset]
    simp [addMembership, hm]

/-- The membership rows left by the AddOrgUser step always contain the
(org, user) pair. -/
theorem addMembership_mem (s : Store) (orgId userId : Nat) (role : RoleType) :
    (addMembership s orgId userId role).any
      (fun ou => ou.orgId == orgId && ou.userId == userId) = true := by
  unfold addMembership
  by_cases hm : membershipExists s orgId userId
  · rw [if_pos hm]
    exact hm
  · rw [if_neg hm]
    simp

/-- The fully successful complete-invite run: 200 with the message/id body,
the invite completed in the store, the membership ensured, the invited org
active, and the commands issued in order: create user, publish, add org
membership, transition to completed, set active org, log in. -/
theorem CompleteInvite_run (env : Env) (s : Store) (form : CompleteInviteForm)
    (invite : TempUser) (usr : User)
    (hfind : getTempUserByCode s form.inviteCode = Except.ok invite)
    (hpend : invite.status = TempUserStatus.pending)
    (hcreate : env.createUser form = Except.ok usr)
    (hpub : env.publishOk = true) (hlogin : env.loginOk = true)
    (hadd : env.addOrgUserFail = false) (hupd : env.updateStatusFail = false)
    (hset : env.setUsingOrgFail = false) :
    CompleteInvite env s (some form) =
      (⟨200, RespBody.obj [("message", JsonVal.str "User created and logged in"),
        ("id", JsonVal.num usr.id)]⟩,
       ⟨mapStatus s.tempUsers invite.code TempUserStatus.completed,
         addMembership s invite.orgId usr.id invite.role,
         (usr.id, invite.orgId) :: s.activeOrg.filter (fun p => p.1 ≠ usr.id)⟩,
       [Cmd.createUserCmd form.username, Cmd.publishCmd,
        Cmd.addOrgUserCmd invite.orgId usr.id invite.role,
        Cmd.updateStatusCmd invite.code TempUserStatus.completed,
        Cmd.setUsingOrgCmd invite.orgId usr.id, Cmd.loginCmd usr.id]) := by
  have hfind2 : List.find? (fun t => t.code == invite.code) s.tempUsers = some invite := by
    rw [getTempUserByCode_code_eq s form.inviteCode invite hfind]
    exact (getTempUserByCode_ok_iff s form.inviteCode invite).mp hfind
  have happly := applyUserInvite_success env s usr invite hfind2 hpend hadd hupd hset
  simp only [CompleteInvite, hfind, hpend, hcreate, hpub, hlogin, happly]
  simp

/-- A complete-invite call on a code whose record exists but is not pending
answers 412 naming the current status, with the store untouched and no
collaborator command issued. -/
theorem CompleteInvite_not_pending (env : Env) (s : Store) (f : CompleteInviteForm)
    (invite : TempUser)
    (hfind : getTempUserByCode s f.inviteCode = Except.ok invite)
    (hst : invite.status ≠ TempUserStatus.pending) :
    CompleteInvite env s (some f) =
      (Response.err 412 ("Invite cannot be used in status " ++ invite.status.toStr),
        s, []) := by
  simp only [CompleteInvite, hfind]
  simp [hst]

/-- A failed applyUserInvite continuation always reports a 500 response. -/
theorem applyUserInviteFrom_fail_rsp (env : Env) (s : Store) (usr : User)
    (invite : TempUser) (b : Bool) (tr : List Cmd)
    (h : (applyUserInviteFrom env s usr invite b tr).ok = false) :
    ∃ m, (applyUserInviteFrom env s usr invite b tr).rsp =
      some (Response.err 500 m) := by
  unfold applyUserInviteFrom updateTempUserStatus at h ⊢
  cases hu : storeUpdateTempUserStatus env.updateStatusFail s invite.code
      TempUserStatus.completed with
  | error e =>
    exact ⟨"Failed to update invite status", rfl⟩
  | ok s2 =>
    rw [hu] at h
    cases b with
    | false => simp at h
    | true =>
      cases hsf : env.setUsingOrgFail with
      | false => rw [hsf] at h; simp at h
      | true => exact ⟨"Failed to set org as active", rfl⟩

/-- A failed applyUserInvite always reports a 500 response. -/
theorem applyUserInvite_fail_rsp (env : Env) (s : Store) (usr : User)
    (invite : TempUser) (b : Bool)
    (h : (applyUserInvite env s usr invite b).ok = false) :
    ∃ m, (applyUserInvite env s usr invite b).rsp = some (Response.err 500 m) := by
  unfold applyUserInvite at h ⊢
  cases ha : addOrgUser env.addOrgUserFail s invite.orgId usr.id invite.role with
  | error e =>
    cases e with
    | alreadyAdded =>
      rw [ha] at h
      exact applyUserInviteFrom_fail_rsp env s usr invite b _ h
    | other =>
      exact ⟨"Error while trying to create org user", rfl⟩
  | ok s1 =>
    rw [ha] at h
    exact applyUserInviteFrom_fail_rsp env s1 usr invite b _ h

/-- A complete-invite call answers 404 only when the store lookup hit the
not-found sentinel, that is, only when no invite with the code exists. -/
theorem CompleteInvite_404_only (env : Env) (s : Store) (f : CompleteInviteForm)
    (h : (CompleteInvite env s (some f)).1.status = 404) :
    getTempUserByCode s f.inviteCode = Except.error StoreErr.notFound := by
  cases hq : getTempUserByCode s f.inviteCode with
  | error e =>
    cases e with
    | notFound => rfl
    | other => exact absurd hq (getTempUserByCode_ne_other s f.inviteCode)
  | ok invite =>
    exfalso
    simp only [CompleteInvite, hq] at h
    by_cases hst : invite.status = TempUserStatus.pending
    · simp only [hst, ne_eq, not_true_eq_false, if_false] at h
      cases hc : env.createUser f with
      | error e =>
        cases e <;> rw [hc] at h <;> simp [Response.err] at h
      | ok usr =>
        rw [hc] at h
        cases hp : env.publishOk with
        | false => rw [hp] at h; simp [Response.err] at h
        | true =>
          rw [hp] at h
          simp only [Bool.not_true, Bool.false_eq_true, if_false] at h
          cases ho : (applyUserInvite env s usr invite true).ok with
          | false =>
            obtain ⟨m, hm⟩ := applyUserInvite_fail_rsp env s usr invite true ho
            rw [ho] at h
            simp only [Bool.not_false, if_true, hm] at h
            simp [Response.err] at h
          | true =>
            rw [ho] at h
            simp only [Bool.not_true, Bool.false_eq_true, if_false] at h
            cases hl : env.loginOk with
            | false => rw [hl] at h; simp [Response.err] at h
            | true => rw [hl] at h; simp [Response.err] at h
    · simp [hst, Response.err] at h

/-- Looking up a code after its status update finds the completed record,
whatever happened to the membership and active-org components. -/
theorem getTempUserByCode_after (s : Store) (code : String) (invite : TempUser)
    (orgUsers : List OrgUser) (activeOrg : List (Nat × Nat))
    (hfind1 : List.find? (fun t => t.code == code) s.tempUsers = some invite) :
    getTempUserByCode
      ⟨mapStatus s.tempUsers code TempUserStatus.completed, orgUsers, activeOrg⟩ code =
      Except.ok (invite.withStatus TempUserStatus.completed) := by
  rw [getTempUserByCode_ok_iff]
  show List.find? (fun t => t.code == code)
    (mapStatus s.tempUsers code TempUserStatus.completed) = _
  rw [find?_mapStatus, hfind1]
  rfl

/-! ## Claim theorems: complete invite -/

/-- C2: under collaborators that succeed, completing a pending code answers
200, and completing the same code again answers the 412 state-conflict
naming status completed; in general a code whose invite exists in a
non-pending status always gets 412 naming that status, and 404 is answered
only when no invite with the code exists. -/
theorem CompleteInvite_twice (env : Env) (s : Store) (form : CompleteInviteForm)
    (invite : TempUser) (usr : User)
    (hfind : getTempUserByCode s form.inviteCode = Except.ok invite)
    (hpend : invite.status = TempUserStatus.pending)
    (hcreate : env.createUser form = Except.ok usr)
    (hpub : env.publishOk = true) (hlogin : env.loginOk = true)
    (hadd : env.addOrgUserFail = false) (hupd : env.updateStatusFail = false)
    (hset : env.setUsingOrgFail = false) :
    (CompleteInvite env s (some form)).1.status = 200 ∧
    (CompleteInvite env (CompleteInvite env s (some form)).2.1 (some form)).1 =
      Response.err 412 ("Invite cannot be used in status " ++
        TempUserStatus.toStr TempUserStatus.completed) ∧
    (∀ s2 f2 inv2, getTempUserByCode s2 f2.inviteCode = Except.ok inv2 →
      inv2.status ≠ TempUserStatus.pending →
      (CompleteInvite env s2 (some f2)).1 =
        Response.err 412 ("Invite cannot be used in status " ++ inv2.status.toStr)) ∧
    (∀ s2 f2, (CompleteInvite env s2 (some f2)).1.status = 404 →
      getTempUserByCode s2 f2.inviteCode = Except.error StoreErr.notFound) := by
  have hrun := CompleteInvite_run env s form invite usr hfind hpend hcreate hpub
    hlogin hadd hupd hset
  have hcode := getTempUserByCode_code_eq s form.inviteCode invite hfind
  have hfind1 : List.find? (fun t => t.code == form.inviteCode) s.tempUsers = some invite :=
    (getTempUserByCode_ok_iff s form.inviteCode invite).mp hfind
  refine ⟨?_, ?_, ?_, ?_⟩
  · rw [hrun]
  · rw [hrun]
    have hsec : getTempUserByCode
        ⟨mapStatus s.tempUsers invite.code TempUserStatus.completed,
          addMembership s invite.orgId usr.id invite.role,
          (usr.id, invite.orgId) :: s.activeOrg.filter (fun p => p.1 ≠ usr.id)⟩
        form.inviteCode =
        Except.ok (invite.withStatus TempUserStatus.completed) := by
      rw [hcode]
      exact getTempUserByCode_after s form.inviteCode invite _ _ hfind1
    rw [CompleteInvite_not_pending env _ form _ hsec (by simp [TempUser.withStatus])]
    rfl
  · intro s2 f2 inv2 hq hst
    rw [CompleteInvite_not_pending env s2 f2 inv2 hq hst]
  · intro s2 f2 h404
    exact CompleteInvite_404_only env s2 f2 h404

/-- Witness for C2 at the concrete pending store: first call 200, second
call the 412 naming completed, plus the general 412/404 components. -/
theorem CompleteInvite_twice_witness :
    (CompleteInvite okEnv storePending (some formOne)).1.status = 200 ∧
    (CompleteInvite okEnv (CompleteInvite okEnv storePending (some formOne)).2.1
        (some formOne)).1 =
      Response.err 412 ("Invite cannot be used in status " ++
        TempUserStatus.toStr TempUserStatus.completed) ∧
    (∀ s2 f2 inv2, getTempUserByCode s2 f2.inviteCode = Except.ok inv2 →
      inv2.status ≠ TempUserStatus.pending →
      (CompleteInvite okEnv s2 (some f2)).1 =
        Response.err 412 ("Invite cannot be used in status " ++ inv2.status.toStr)) ∧
    (∀ s2 f2, (CompleteInvite okEnv s2 (some f2)).1.status = 404 →
      getTempUserByCode s2 f2.inviteCode = Except.error StoreErr.notFound) :=
  CompleteInvite_twice okEnv storePending formOne invPending newUser
    rfl rfl rfl rfl rfl rfl rfl rfl

/-- C9 counterexample: a complete-invite call that succeeds end to end (its
response status is 200) whose body has no userId field at all; the user id
is carried under the key id instead. -/
theorem CompleteInvite_userId_cex :
    (CompleteInvite okEnv storePending (some formOne)).1.status = 200 ∧
    (CompleteInvite okEnv storePending (some formOne)).1.body.field "userId" = none ∧
    (CompleteInvite okEnv storePending (some formOne)).1.body.field "id" =
      some (JsonVal.num 7) :=
  ⟨rfl, rfl, rfl⟩

/-- C9 (amended): for every complete-invite request that succeeds end to
end, the 200 response body is an object with a message field and an id
field — named id, not userId — carrying the new user's id. -/
theorem CompleteInvite_success_body (env : Env) (s : Store) (form : CompleteInviteForm)
    (invite : TempUser) (usr : User)
    (hfind : getTempUserByCode s form.inviteCode = Except.ok invite)
    (hpend : invite.status = TempUserStatus.pending)
    (hcreate : env.createUser form = Except.ok usr)
    (hpub : env.publishOk = true) (hlogin : env.loginOk = true)
    (hadd : env.addOrgUserFail = false) (hupd : env.updateStatusFail = false)
    (hset : env.setUsingOrgFail = false) :
    (CompleteInvite env s (some form)).1 =
      ⟨200, RespBody.obj [("message", JsonVal.str "User created and logged in"),
        ("id", JsonVal.num usr.id)]⟩ := by
  rw [CompleteInvite_run env s form invite usr hfind hpend hcreate hpub hlogin
    hadd hupd hset]

/-- Witness for the amended C9 at the concrete pending store. -/
theorem CompleteInvite_success_body_witness :
    (CompleteInvite okEnv storePending (some formOne)).1 =
      ⟨200, RespBody.obj [("message", JsonVal.str "User created and logged in"),
        ("id", JsonVal.num 7)]⟩ :=
  CompleteInvite_success_body okEnv storePending formOne invPending newUser
    rfl rfl rfl rfl rfl rfl rfl rfl

/-! ## Failure-mode run lemmas for the complete-invite flow -/

/-- After the tolerated AddOrgUser step, a SetUsingOrg failure stops the
flow with the 500 response while the status transition stays applied. -/
theorem applyUserInviteFrom_setFail (env : Env) (s : Store) (usr : User)
    (invite : TempUser) (tr : List Cmd)
    (hfind : List.find? (fun t => t.code == invite.code) s.tempUsers = some invite)
    (hpend : invite.status = TempUserStatus.pending)
    (hupd : env.updateStatusFail = false) (hset : env.setUsingOrgFail = true) :
    applyUserInviteFrom env s usr invite true tr =
      ⟨false, some (Response.err 500 "Failed to set org as active"),
        ⟨mapStatus s.tempUsers invite.code TempUserStatus.completed, s.orgUsers,
          s.activeOrg⟩,
        tr ++ [Cmd.updateStatusCmd invite.code TempUserStatus.completed,
          Cmd.setUsingOrgCmd invite.orgId usr.id]⟩ := by
  unfold applyUserInviteFrom updateTempUserStatus
  rw [hupd, storeUpdateTempUserStatus_pending s invite.code invite
    TempUserStatus.completed hfind hpend]
  simp [hset]

/-- An applyUserInvite run stopped by a SetUsingOrg failure: membership and
the completed transition stay applied, the active-org step does not. -/
theorem applyUserInvite_setFail (env : Env) (s : Store) (usr : User) (invite : TempUser)
    (hfind : List.find? (fun t => t.code == invite.code) s.tempUsers = some invite)
    (hpend : invite.status = TempUserStatus.pending)
    (hadd : env.addOrgUserFail = false) (hupd : env.updateStatusFail = false)
    (hset : env.setUsingOrgFail = true) :
    applyUserInvite env s usr invite true =
      ⟨false, some (Response.err 500 "Failed to set org as active"),
        ⟨mapStatus s.tempUsers invite.code TempUserStatus.completed,
          addMembership s invite.orgId usr.id invite.role, s.activeOrg⟩,
        [Cmd.addOrgUserCmd invite.orgId usr.id invite.role,
          Cmd.updateStatusCmd invite.code TempUserStatus.completed,
          Cmd.setUsingOrgCmd invite.orgId usr.id]⟩ := by
  unfold applyUserInvite addOrgUser
  by_cases hm : membershipExists s invite.orgId usr.id
  · rw [hadd]
    simp only [Bool.false_eq_true, if_false, hm, if_true]
    rw [applyUserInviteFrom_setFail env s usr invite _ hfind hpend hupd hset]
    simp [addMembership, hm]
  · simp only [Bool.not_eq_true] at hm
    rw [hadd]
    simp only [Bool.false_eq_true, if_false, hm]
    rw [applyUserInviteFrom_setFail env
      ⟨s.tempUsers, ⟨invite.orgId, usr.id, invite.role⟩ :: s.orgUsers, s.activeOrg⟩
      usr invite _ hfind hpend hupd hset]
    simp [addMembership, hm]

/-- After the tolerated AddOrgUser step, an UpdateTempUserStatus failure
stops the flow with the generic 500 update-failure response and leaves the
store as the AddOrgUser step left it. -/
theorem applyUserInviteFrom_updFail (env : Env) (s : Store) (usr : User)
    (invite : TempUser) (tr : List Cmd)
    (hupd : env.updateStatusFail = true) :
    applyUserInviteFrom env s usr invite true tr =
      ⟨false, some (Response.err 500 "Failed to update invite status"), s,
        tr ++ [Cmd.updateStatusCmd invite.code TempUserStatus.completed]⟩ := by
  unfold applyUserInviteFrom updateTempUserStatus storeUpdateTempUserStatus
  rw [hupd]
  rfl

/-- An applyUserInvite run stopped by an UpdateTempUserStatus failure: the
membership addition stays applied, the invite records are untouched (the
invite stays pending) and the active-org step is never reached. -/
theorem applyUserInvite_updFail (env : Env) (s : Store) (usr : User) (invite : TempUser)
    (hadd : env.addOrgUserFail = false) (hupd : env.updateStatusFail = true) :
    applyUserInvite env s usr invite true =
      ⟨false, some (Response.err 500 "Failed to update invite status"),
        ⟨s.tempUsers, addMembership s invite.orgId usr.id invite.role, s.activeOrg⟩,
        [Cmd.addOrgUserCmd invite.orgId usr.id invite.role,
          Cmd.updateStatusCmd invite.code TempUserStatus.completed]⟩ := by
  unfold applyUserInvite addOrgUser
  by_cases hm : membershipExists s invite.orgId usr.id
  · rw [hadd]
    simp only [Bool.false_eq_true, if_false, hm, if_true]
    rw [applyUserInviteFrom_updFail env s usr invite _ hupd]
    simp [addMembership, hm]
  · simp only [Bool.not_eq_true] at hm
    rw [hadd]
    simp only [Bool.false_eq_true, if_false, hm]
    rw [applyUserInviteFrom_updFail env
      ⟨s.tempUsers, ⟨invite.orgId, usr.id, invite.role⟩ :: s.orgUsers, s.activeOrg⟩
      usr invite _ hupd]
    simp [addMembership, hm]

/-- The complete-invite run stopped by an UpdateTempUserStatus failure: the
generic 500 while the membership addition remains applied and the invite
records stay untouched. -/
theorem CompleteInvite_updFail_run (env : Env) (s : Store) (form : CompleteInviteForm)
    (invite : TempUser) (usr : User)
    (hfind : getTempUserByCode s form.inviteCode = Except.ok invite)
    (hpend : invite.status = TempUserStatus.pending)
    (hcreate : env.createUser form = Except.ok usr)
    (hpub : env.publishOk = true)
    (hadd : env.addOrgUserFail = false) (hupd : env.updateStatusFail = true) :
    CompleteInvite env s (some form) =
      (Response.err 500 "Failed to update invite status",
       ⟨s.tempUsers, addMembership s invite.orgId usr.id invite.role, s.activeOrg⟩,
       [Cmd.createUserCmd form.username, Cmd.publishCmd,
        Cmd.addOrgUserCmd invite.orgId usr.id invite.role,
        Cmd.updateStatusCmd invite.code TempUserStatus.completed]) := by
  have happly := applyUserInvite_updFail env s usr invite hadd hupd
  simp only [CompleteInvite, hfind, hpend, hcreate, hpub, happly]
  simp

/-- The complete-invite run stopped by a non-sentinel AddOrgUser failure:
500 with the store untouched, so the invite is still pending. -/
theorem CompleteInvite_addFail_run (env : Env) (s : Store) (form : CompleteInviteForm)
    (invite : TempUser) (usr : User)
    (hfind : getTempUserByCode s form.inviteCode = Except.ok invite)
    (hpend : invite.status = TempUserStatus.pending)
    (hcreate : env.createUser form = Except.ok usr)
    (hpub : env.publishOk = true) (hadd : env.addOrgUserFail = true) :
    CompleteInvite env s (some form) =
      (Response.err 500 "Error while trying to create org user", s,
       [Cmd.createUserCmd form.username, Cmd.publishCmd,
        Cmd.addOrgUserCmd invite.orgId usr.id invite.role]) := by
  have happly : applyUserInvite env s usr invite true =
      ⟨false, some (Response.err 500 "Error while trying to create org user"), s,
        [Cmd.addOrgUserCmd invite.orgId usr.id invite.role]⟩ := by
    unfold applyUserInvite addOrgUser
    rw [hadd]
    rfl
  simp only [CompleteInvite, hfind, hpend, hcreate, hpub, happly]
  simp

/-- The complete-invite run stopped by a SetUsingOrg failure: 500 while the
membership and the completed transition remain applied. -/
theorem CompleteInvite_setFail_run (env : Env) (s : Store) (form : CompleteInviteForm)
    (invite : TempUser) (usr : User)
    (hfind : getTempUserByCode s form.inviteCode = Except.ok invite)
    (hpend : invite.status = TempUserStatus.pending)
    (hcreate : env.createUser form = Except.ok usr)
    (hpub : env.publishOk = true)
    (hadd : env.addOrgUserFail = false) (hupd : env.updateStatusFail = false)
    (hset : env.setUsingOrgFail = true) :
    CompleteInvite env s (some form) =
      (Response.err 500 "Failed to set org as active",
       ⟨mapStatus s.tempUsers invite.code TempUserStatus.completed,
         addMembership s invite.orgId usr.id invite.role, s.activeOrg⟩,
       [Cmd.createUserCmd form.username, Cmd.publishCmd,
        Cmd.addOrgUserCmd invite.orgId usr.id invite.role,
        Cmd.updateStatusCmd invite.code TempUserStatus.completed,
        Cmd.setUsingOrgCmd invite.orgId usr.id]) := by
  have hfind2 : List.find? (fun t => t.code == invite.code) s.tempUsers = some invite := by
    rw [getTempUserByCode_code_eq s form.inviteCode invite hfind]
    exact (getTempUserByCode_ok_iff s form.inviteCode invite).mp hfind
  have happly := applyUserInvite_setFail env s usr invite hfind2 hpend hadd hupd hset
  simp only [CompleteInvite, hfind, hpend, hcreate, hpub, happly]
  simp

/-- The complete-invite run stopped by a session-login failure: 500 while
every store sub-step (membership, completed transition, active org) remains
applied. -/
theorem CompleteInvite_loginFail_run (env : Env) (s : Store) (form : CompleteInviteForm)
    (invite : TempUser) (usr : User)
    (hfind : getTempUserByCode s form.inviteCode = Except.ok invite)
    (hpend : invite.status = TempUserStatus.pending)
    (hcreate : env.createUser form = Except.ok usr)
    (hpub : env.publishOk = true) (hlogin : env.loginOk = false)
    (hadd : env.addOrgUserFail = false) (hupd : env.updateStatusFail = false)
    (hset : env.setUsingOrgFail = false) :
    CompleteInvite env s (some form) =
      (Response.err 500 "failed to accept invite",
       ⟨mapStatus s.tempUsers invite.code TempUserStatus.completed,
         addMembership s invite.orgId usr.id invite.role,
         (usr.id, invite.orgId) :: s.activeOrg.filter (fun p => p.1 ≠ usr.id)⟩,
       [Cmd.createUserCmd form.username, Cmd.publishCmd,
        Cmd.addOrgUserCmd invite.orgId usr.id invite.role,
        Cmd.updateStatusCmd invite.code TempUserStatus.completed,
        Cmd.setUsingOrgCmd invite.orgId usr.id, Cmd.loginCmd usr.id]) := by
  have hfind2 : List.find? (fun t => t.code == invite.code) s.tempUsers = some invite := by
    rw [getTempUserByCode_code_eq s form.inviteCode invite hfind]
    exact (getTempUserByCode_ok_iff s form.inviteCode invite).mp hfind
  have happly := applyUserInvite_success env s usr invite hfind2 hpend hadd hupd hset
  simp only [CompleteInvite, hfind, hpend, hcreate, hpub, hlogin, happly]
  simp

/-- C3: applying an invite in the complete-invite flow issues its sub-steps
in this exact order: add org membership, transition the invite to
completed, set the invited org active, then log the user in (first
conjunct, the full command trace). The AddOrgUser already-added sentinel is
tolerated and the flow continues to completion (second conjunct). Any other
AddOrgUser failure answers 500 with the store untouched, so the invite is
still pending (third conjunct). A failure at any later sub-step answers an
error while all earlier sub-steps remain applied, with no rollback: on a
transition-to-completed failure the membership addition persists while the
invite records are untouched (fourth conjunct), on a set-active-org failure
the membership and the completed transition persist (fifth conjunct), and
on a login failure every store sub-step persists (sixth conjunct). -/
theorem applyUserInvite_sequence :
    (∀ env s form invite usr,
      getTempUserByCode s form.inviteCode = Except.ok invite →
      invite.status = TempUserStatus.pending →
      env.createUser form = Except.ok usr →
      env.publishOk = true → env.loginOk = true →
      env.addOrgUserFail = false → env.updateStatusFail = false →
      env.setUsingOrgFail = false →
      (CompleteInvite env s (some form)).2.2 =
        [Cmd.createUserCmd form.username, Cmd.publishCmd,
         Cmd.addOrgUserCmd invite.orgId usr.id invite.role,
         Cmd.updateStatusCmd invite.code TempUserStatus.completed,
         Cmd.setUsingOrgCmd invite.orgId usr.id, Cmd.loginCmd usr.id]) ∧
    (∀ env s usr invite,
      membershipExists s invite.orgId usr.id = true →
      List.find? (fun t => t.code == invite.code) s.tempUsers = some invite →
      invite.status = TempUserStatus.pending →
      env.addOrgUserFail = false → env.updateStatusFail = false →
      env.setUsingOrgFail = false →
      (applyUserInvite env s usr invite true).ok = true) ∧
    (∀ env s form invite usr,
      getTempUserByCode s form.inviteCode = Except.ok invite →
      invite.status = TempUserStatus.pending →
      env.createUser form = Except.ok usr →
      env.publishOk = true → env.addOrgUserFail = true →
      CompleteInvite env s (some form) =
        (Response.err 500 "Error while trying to create org user", s,
         [Cmd.createUserCmd form.username, Cmd.publishCmd,
          Cmd.addOrgUserCmd invite.orgId usr.id invite.role])) ∧
    (∀ env s form invite usr,
      getTempUserByCode s form.inviteCode = Except.ok invite →
      invite.status = TempUserStatus.pending →
      env.createUser form = Except.ok usr →
      env.publishOk = true →
      env.addOrgUserFail = false → env.updateStatusFail = true →
      (CompleteInvite env s (some form)).1 =
        Response.err 500 "Failed to update invite status" ∧
      membershipExists (CompleteInvite env s (some form)).2.1 invite.orgId usr.id = true ∧
      (CompleteInvite env s (some form)).2.1.tempUsers = s.tempUsers) ∧
    (∀ env s form invite usr,
      getTempUserByCode s form.inviteCode = Except.ok invite →
      invite.status = TempUserStatus.pending →
      env.createUser form = Except.ok usr →
      env.publishOk = true →
      env.addOrgUserFail = false → env.updateStatusFail = false →
      env.setUsingOrgFail = true →
      (CompleteInvite env s (some form)).1 =
        Response.err 500 "Failed to set org as active" ∧
      getTempUserByCode (CompleteInvite env s (some form)).2.1 form.inviteCode =
        Except.ok (invite.withStatus TempUserStatus.completed) ∧
      membershipExists (CompleteInvite env s (some form)).2.1 invite.orgId usr.id = true) ∧
    (∀ env s form invite usr,
      getTempUserByCode s form.inviteCode = Except.ok invite →
      invite.status = TempUserStatus.pending →
      env.createUser form = Except.ok usr →
      env.publishOk = true → env.loginOk = false →
      env.addOrgUserFail = false → env.updateStatusFail = false →
      env.setUsingOrgFail = false →
      (CompleteInvite env s (some form)).1 = Response.err 500 "failed to accept invite" ∧
      getTempUserByCode (CompleteInvite env s (some form)).2.1 form.inviteCode =
        Except.ok (invite.withStatus TempUserStatus.completed) ∧
      membershipExists (CompleteInvite env s (some form)).2.1 invite.orgId usr.id = true ∧
      (usr.id, invite.orgId) ∈ (CompleteInvite env s (some form)).2.1.activeOrg) := by
  refine ⟨?_, ?_, ?_, ?_, ?_, ?_⟩
  · intro env s form invite usr hfind hpend hcreate hpub hlogin hadd hupd hset
    rw [CompleteInvite_run env s form invite usr hfind hpend hcreate hpub hlogin
      hadd hupd hset]
  · intro env s usr invite hmem hfind hpend hadd hupd hset
    rw [applyUserInvite_success env s usr invite hfind hpend hadd hupd hset]
  · intro env s form invite usr hfind hpend hcreate hpub hadd
    exact CompleteInvite_addFail_run env s form invite usr hfind hpend hcreate hpub hadd
  · intro env s form invite usr hfind hpend hcreate hpub hadd hupd
    have hrun := CompleteInvite_updFail_run env s form invite usr hfind hpend hcreate
      hpub hadd hupd
    refine ⟨by rw [hrun], ?_, by rw [hrun]⟩
    rw [hrun]
    unfold membershipExists
    exact addMembership_mem s invite.orgId usr.id invite.role
  · intro env s form invite usr hfind hpend hcreate hpub hadd hupd hset
    have hrun := CompleteInvite_setFail_run env s form invite usr hfind hpend hcreate
      hpub hadd hupd hset
    have hcode := getTempUserByCode_code_eq s form.inviteCode invite hfind
    have hfind1 : List.find? (fun t => t.code == form.inviteCode) s.tempUsers
        = some invite :=
      (getTempUserByCode_ok_iff s form.inviteCode invite).mp hfind
    refine ⟨by rw [hrun], ?_, ?_⟩
    · rw [hrun, hcode]
      exact getTempUserByCode_after s form.inviteCode invite _ _ hfind1
    · rw [hrun]
      unfold membershipExists
      exact addMembership_mem s invite.orgId usr.id invite.role
  · intro env s form invite usr hfind hpend hcreate hpub hlogin hadd hupd hset
    have hrun := CompleteInvite_loginFail_run env s form invite usr hfind hpend hcreate
      hpub hlogin hadd hupd hset
    have hcode := getTempUserByCode_code_eq s form.inviteCode invite hfind
    have hfind1 : List.find? (fun t => t.code == form.inviteCode) s.tempUsers
        = some invite :=
      (getTempUserByCode_ok_iff s form.inviteCode invite).mp hfind
    refine ⟨by rw [hrun], ?_, ?_, ?_⟩
    · rw [hrun, hcode]
      exact getTempUserByCode_after s form.inviteCode invite _ _ hfind1
    · rw [hrun]
      unfold membershipExists
      exact addMembership_mem s invite.orgId usr.id invite.role
    · rw [hrun]
      exact List.mem_cons_self _ _

/-- Witness for C3 at concrete stores and oracle environments: the full
success trace, the tolerated already-member run, the fatal AddOrgUser run,
the UpdateTempUserStatus failure run, the SetUsingOrg failure run and the
login failure run. -/
theorem applyUserInvite_sequence_witness :
    (CompleteInvite okEnv storePending (some formOne)).2.2 =
      [Cmd.createUserCmd "newlogin", Cmd.publishCmd,
       Cmd.addOrgUserCmd 2 7 RoleType.editor,
       Cmd.updateStatusCmd "abc" TempUserStatus.completed,
       Cmd.setUsingOrgCmd 2 7, Cmd.loginCmd 7] ∧
    (applyUserInvite okEnv storeMember newUser invPending true).ok = true ∧
    CompleteInvite envAddFail storePending (some formOne) =
      (Response.err 500 "Error while trying to create org user", storePending,
       [Cmd.createUserCmd "newlogin", Cmd.publishCmd,
        Cmd.addOrgUserCmd 2 7 RoleType.editor]) ∧
    ((CompleteInvite envUpdFail storePending (some formOne)).1 =
        Response.err 500 "Failed to update invite status" ∧
      membershipExists (CompleteInvite envUpdFail storePending (some formOne)).2.1 2 7 =
        true ∧
      (CompleteInvite envUpdFail storePending (some formOne)).2.1.tempUsers =
        storePending.tempUsers) ∧
    ((CompleteInvite envSetFail storePending (some formOne)).1 =
        Response.err 500 "Failed to set org as active" ∧
      getTempUserByCode (CompleteInvite envSetFail storePending (some formOne)).2.1 "abc" =
        Except.ok (invPending.withStatus TempUserStatus.completed) ∧
      membershipExists (CompleteInvite envSetFail storePending (some formOne)).2.1 2 7 =
        true) ∧
    ((CompleteInvite envLoginFail storePending (some formOne)).1 =
        Response.err 500 "failed to accept invite" ∧
      getTempUserByCode (CompleteInvite envLoginFail storePending (some formOne)).2.1
          "abc" =
        Except.ok (invPending.withStatus TempUserStatus.completed) ∧
      membershipExists (CompleteInvite envLoginFail storePending (some formOne)).2.1 2 7 =
        true ∧
      (7, 2) ∈ (CompleteInvite envLoginFail storePending (some formOne)).2.1.activeOrg) :=
  ⟨applyUserInvite_sequence.1 okEnv storePending formOne invPending newUser
      rfl rfl rfl rfl rfl rfl rfl rfl,
   applyUserInvite_sequence.2.1 okEnv storeMember newUser invPending
      rfl rfl rfl rfl rfl rfl,
   applyUserInvite_sequence.2.2.1 envAddFail storePending formOne invPending newUser
      rfl rfl rfl rfl rfl,
   applyUserInvite_sequence.2.2.2.1 envUpdFail storePending formOne invPending newUser
      rfl rfl rfl rfl rfl rfl,
   applyUserInvite_sequence.2.2.2.2.1 envSetFail storePending formOne invPending newUser
      rfl rfl rfl rfl rfl rfl rfl,
   applyUserInvite_sequence.2.2.2.2.2 envLoginFail storePending formOne invPending newUser
      rfl rfl rfl rfl rfl rfl rfl rfl⟩

/-! ## Claim theorem: create invite for an existing user -/

/-- When AddOrgUser succeeds for an existing user, the store gains exactly
the membership row (invite records untouched) and the issued commands are
the membership addition, optionally followed by the invited_to_org email. -/
theorem inviteExistingUserToOrg_added (env : Env) (c : ReqContext) (s : Store)
    (usr : User) (inviteDto : AddInviteForm) (role : RoleType)
    (hfail : env.addOrgUserFail = false)
    (hm : membershipExists s c.orgId usr.id = false) :
    (inviteExistingUserToOrg env c s usr inviteDto role).2.1 =
      ⟨s.tempUsers, ⟨c.orgId, usr.id, role⟩ :: s.orgUsers, s.activeOrg⟩ ∧
    ((inviteExistingUserToOrg env c s usr inviteDto role).2.2 =
        [Cmd.addOrgUserCmd c.orgId usr.id role] ∨
      (inviteExistingUserToOrg env c s usr inviteDto role).2.2 =
        [Cmd.addOrgUserCmd c.orgId usr.id role, Cmd.sendEmailCmd "invited_to_org"]) := by
  unfold inviteExistingUserToOrg addOrgUser
  rw [hfail, hm]
  cases hse : inviteDto.sendEmail && env.isEmail usr.email with
  | false => simp [hse]
  | true =>
    cases hmail : env.sendOrgEmail with
    | error e => simp [hse, hmail]
    | ok u => simp [hse, hmail]

/-- C5: for a create-invite request naming an existing user, when access
control approves and the membership is new, the handler adds exactly the
org membership row, leaves the invite records untouched and never issues a
create-invite-record command (first conjunct); when access control denies
it answers 403 with nothing issued (second conjunct); when the store
reports the already-added sentinel it answers 412 with the store unchanged
(third conjunct). -/
theorem AddOrgInvite_existing_user (env : Env) (c : ReqContext) (s : Store)
    (inviteDto : AddInviteForm) (role : RoleType) (usr : User)
    (hrole : parseRole inviteDto.role = some role)
    (hgate : (!c.orgRole.includes role && !c.isGrafanaAdmin) = false)
    (hfound : env.getUserByLogin inviteDto.loginOrEmail = Except.ok usr) :
    (env.evaluate usr.id = Except.ok true → env.addOrgUserFail = false →
      membershipExists s c.orgId usr.id = false →
      (AddOrgInvite env c s (some inviteDto)).2.1 =
        ⟨s.tempUsers, ⟨c.orgId, usr.id, role⟩ :: s.orgUsers, s.activeOrg⟩ ∧
      (∀ oid em, Cmd.createTempUserCmd oid em ∉
        (AddOrgInvite env c s (some inviteDto)).2.2)) ∧
    (env.evaluate usr.id = Except.ok false →
      AddOrgInvite env c s (some inviteDto) =
        (Response.err 403
          "Permission denied: not permitted to add an existing user to this organisation",
         s, [])) ∧
    (env.evaluate usr.id = Except.ok true → env.addOrgUserFail = false →
      membershipExists s c.orgId usr.id = true →
      AddOrgInvite env c s (some inviteDto) =
        (Response.err 412 ("User " ++ inviteDto.loginOrEmail ++
          " is already added to organization"), s,
         [Cmd.addOrgUserCmd c.orgId usr.id role])) := by
  refine ⟨?_, ?_, ?_⟩
  · intro heval hfail hm
    have hred : AddOrgInvite env c s (some inviteDto) =
        inviteExistingUserToOrg env c s usr inviteDto role := by
      simp only [AddOrgInvite, hrole, hgate, hfound, heval]
      simp
    obtain ⟨hstore, htr⟩ :=
      inviteExistingUserToOrg_added env c s usr inviteDto role hfail hm
    rw [hred]
    refine ⟨hstore, ?_⟩
    intro oid em
    rcases htr with h | h <;> rw [h] <;> simp
  · intro heval
    simp only [AddOrgInvite, hrole, hgate, hfound, heval]
    simp
  · intro heval hfail hm
    have hred : AddOrgInvite env c s (some inviteDto) =
        inviteExistingUserToOrg env c s usr inviteDto role := by
      simp only [AddOrgInvite, hrole, hgate, hfound, heval]
      simp
    rw [hred]
    unfold inviteExistingUserToOrg addOrgUser
    rw [hfail, hm]
    simp

/-- Witness for C5: approval adds the membership for existingUser without
an invite record; denial answers 403; the already-member store answers
412. -/
theorem AddOrgInvite_existing_user_witness :
    ((AddOrgInvite envExisting viewerCtx storePending (some viewerRoleForm)).2.1 =
        ⟨storePending.tempUsers, ⟨2, 9, RoleType.viewer⟩ :: storePending.orgUsers,
          storePending.activeOrg⟩ ∧
      (∀ oid em, Cmd.createTempUserCmd oid em ∉
        (AddOrgInvite envExisting viewerCtx storePending (some viewerRoleForm)).2.2)) ∧
    AddOrgInvite envDeny viewerCtx storePending (some viewerRoleForm) =
      (Response.err 403
        "Permission denied: not permitted to add an existing user to this organisation",
       storePending, []) ∧
    AddOrgInvite envExisting viewerCtx storeBobMember (some viewerRoleForm) =
      (Response.err 412 ("User " ++ "bob@example.org" ++
        " is already added to organization"), storeBobMember,
       [Cmd.addOrgUserCmd 2 9 RoleType.viewer]) :=
  ⟨(AddOrgInvite_existing_user envExisting viewerCtx storePending viewerRoleForm
      RoleType.viewer existingUser rfl rfl rfl).1 rfl rfl rfl,
   (AddOrgInvite_existing_user envDeny viewerCtx storePending viewerRoleForm
      RoleType.viewer existingUser rfl rfl rfl).2.1 rfl,
   (AddOrgInvite_existing_user envExisting viewerCtx storeBobMember viewerRoleForm
      RoleType.viewer existingUser rfl rfl rfl).2.2 rfl rfl rfl⟩

end Grafana
